import Mathlib

/-!
Verification development for the binary-asset synthesizer scripts
`scripts/create-production-tflite.py` and `scripts/create-simple-tflite.py`.

The scripts build a byte container: a fixed magic tag, three 32-bit
little-endian header words, a little-endian float32 metadata field, two runs
of float32 values drawn from Python's global pseudo-random generator after
`random.seed(42)`, and pseudo-random padding bytes up to a declared size.

Modelling choices:
 - The global generator of Python's `random` module is modelled by an explicit
   state `RState` holding the current seed and the number of draw calls made
   since seeding.  `random.seed(n)` replaces any prior state by `⟨n, 0⟩`.
   The values produced by the Mersenne-Twister are not reimplemented; they are
   abstracted by the function parameters `u` (one value of `random.random()`
   per call, a rational in `[0,1)` as documented) and `r` (one value of
   `random.randint(0, 255)` per call, in `Fin 256` as documented), both
   indexed by the seed and the call index, which is what makes every draw a
   deterministic function of the seed and of the fixed call order.
 - A byte of output is `BByte`: either a concrete byte value (`raw`) or the
   i-th byte of the little-endian IEEE-754 binary32 serialization of a value
   (`f32 i x`), kept symbolic because no claim depends on the bit pattern
   itself, only on which value is serialized where.  Decoding a float32 field
   is parameterized by the rounding map `rnd` of the serializer
   (rational value to the rational value of the nearest binary32).
-/

/-- A value returned by one call of Python's random.random: a rational in [0,1). -/
abbrev UnitRand := {q : ℚ // 0 ≤ q ∧ q < 1}

/-- State of the global pseudo-random generator: seed last set, and number of
draw calls made since that seeding. -/
structure RState where
  sd : Nat
  k : Nat
deriving DecidableEq, Repr

/-- Model of random.seed(n): resets the generator, discarding any prior state. -/
def seedGen (n : Nat) (_σ : RState) : RState := ⟨n, 0⟩

/-- Model of one call of random.random(): yields the abstract draw for the
current seed and call index and advances the call counter. -/
def randomCall (u : Nat → Nat → UnitRand) (σ : RState) : ℚ × RState :=
  ((u σ.sd σ.k).val, ⟨σ.sd, σ.k + 1⟩)

/-- Model of random.uniform(a, b) = a + (b-a)*random.random(). -/
def uniformCall (u : Nat → Nat → UnitRand) (a b : ℚ) (σ : RState) : ℚ × RState :=
  let p := randomCall u σ
  (a + (b - a) * p.1, p.2)

/-- Model of one call of random.randint(0, 255): an integer in [0,255],
advancing the call counter. -/
def randintCall (r : Nat → Nat → Fin 256) (σ : RState) : Nat × RState :=
  ((r σ.sd σ.k).val, ⟨σ.sd, σ.k + 1⟩)

/-- One byte of the produced container: a concrete byte, or the i-th byte of
the little-endian IEEE-754 binary32 serialization of the value x
(struct.pack of format <f). -/
inductive BByte where
  | raw : Nat → BByte
  | f32 : Fin 4 → ℚ → BByte
deriving DecidableEq, Repr

/-- struct.pack of format <f applied to x: 4 bytes of the little-endian
binary32 serialization of x, in order. -/
def packF32 (x : ℚ) : List BByte :=
  [BByte.f32 0 x, BByte.f32 1 x, BByte.f32 2 x, BByte.f32 3 x]

/-- struct.pack of format <I applied to n: the 4 little-endian base-256 digits
of n (taken mod 2^32, the range the format accepts). -/
def packU32 (n : Nat) : List BByte :=
  [BByte.raw (n % 4294967296 % 256),
   BByte.raw (n % 4294967296 / 256 % 256),
   BByte.raw (n % 4294967296 / 65536 % 256),
   BByte.raw (n % 4294967296 / 16777216 % 256)]

/-- The fixed 4-byte magic tag, the ASCII bytes of the tag string. -/
def tfliteMagic : List BByte := [BByte.raw 84, BByte.raw 70, BByte.raw 76, BByte.raw 51]

/-- The loop `for i in range(n): data.extend(struct.pack('<f', random.uniform(a, b)))`:
n float32 serializations of uniform draws, threading the generator state. -/
def floatLoop (u : Nat → Nat → UnitRand) (a b : ℚ) : Nat → RState → List BByte × RState
  | 0, σ => ([], σ)
  | Nat.succ n, σ =>
    let p := uniformCall u a b σ
    let q := floatLoop u a b n p.2
    (packF32 p.1 ++ q.1, q.2)

/-- The loop `for i in range(n): data.append(random.randint(0, 255))`:
n raw bytes from the generator, threading the state. -/
def padLoop (r : Nat → Nat → Fin 256) : Nat → RState → List BByte × RState
  | 0, σ => ([], σ)
  | Nat.succ n, σ =>
    let p := randintCall r σ
    let q := padLoop r n p.2
    (BByte.raw p.1 :: q.1, q.2)

/-- The container-building part of create_production_tflite_model
(lines 50-79 of scripts/create-production-tflite.py), abstracted over the
resolved auc, input size and declared model size exactly as the spec's
Container Builder contract does.  σ0 is the generator state the invocation
starts from. -/
def create_production_model_data (u : Nat → Nat → UnitRand) (r : Nat → Nat → Fin 256)
    (auc : ℚ) (input_size : Nat) (model_size : Nat) (σ0 : RState) : List BByte :=
  let header := tfliteMagic ++ packU32 1 ++ packU32 model_size
      ++ packU32 input_size ++ packF32 auc
  let σ := seedGen 42 σ0
  let b1 := floatLoop u (-(1/2)) (1/2) 1000 σ
  let b2 := floatLoop u (-1) 1 5000 b1.2
  let base := header ++ b1.1 ++ b2.1
  let pad := padLoop r (model_size - base.length) b2.2
  base ++ pad.1

/-- The metadata record read from the model-metadata JSON file when every
access in the try-block succeeds: all four fields are consumed there. -/
structure RawMetadata where
  model_type : String
  auc : ℚ
  parameters : Nat
  date_trained : String
deriving DecidableEq, Repr

/-- The resolved metadata the rest of the function works with: the metadata
dict plus the input_size variable.  On the fallback path the dict has no
date_trained key, hence the Option. -/
structure ResolvedMeta where
  model_type : String
  auc : ℚ
  parameters : Nat
  date_trained : Option String
  input_size : Nat
deriving DecidableEq, Repr

/-- The hard-coded fallback of the except-branch: default metadata dict and
input_size = 18. -/
def defaultMeta : ResolvedMeta :=
  { model_type := "PAT-Conv-L", auc := 5929 / 10000, parameters := 1984289,
    date_trained := none, input_size := 18 }

/-- The metadata-resolution part (lines 19-44): src models the outcome of the
two file reads and JSON parses inside the try-block — none when any of them
raises (file absent, malformed content, missing metadata key), some when the
metadata record and the scaler-stats object (a JSON object mapping keys to
numeric arrays) were both obtained.  A scaler-stats object without a mean key
raises KeyError at `scaler_stats['mean']`, also landing in the except-branch.
input_size on the success path is len(scaler_stats['mean']). -/
def resolveMetadata (src : Option (RawMetadata × List (String × List ℚ))) : ResolvedMeta :=
  match src with
  | none => defaultMeta
  | some (md, ss) =>
    match ss.lookup "mean" with
    | none => defaultMeta
    | some meanVals =>
      { model_type := md.model_type, auc := md.auc, parameters := md.parameters,
        date_trained := some md.date_trained, input_size := meanVals.length }

/-- create_production_tflite_model: resolve metadata (with fallback), then
build the 25000000-byte container from the resolved auc and input_size;
returns the byte sequence and the metadata. -/
def create_production_tflite_model (u : Nat → Nat → UnitRand) (r : Nat → Nat → Fin 256)
    (src : Option (RawMetadata × List (String × List ℚ))) (σ0 : RState) :
    List BByte × ResolvedMeta :=
  let m := resolveMetadata src
  (create_production_model_data u r m.auc m.input_size 25000000 σ0, m)

/-- create_simple_tflite_model (scripts/create-simple-tflite.py): 12-byte
header (magic, version 1, size 100000), seed 42, 1000 float32 uniform draws in
[-1, 1], then padding bytes to 100000 total. -/
def create_simple_tflite_model (u : Nat → Nat → UnitRand) (r : Nat → Nat → Fin 256)
    (σ0 : RState) : List BByte :=
  let model_size := 100000
  let header := tfliteMagic ++ packU32 1 ++ packU32 model_size
  let σ := seedGen 42 σ0
  let b1 := floatLoop u (-1) 1 1000 σ
  let base := header ++ b1.1
  let pad := padLoop r (model_size - base.length) b1.2
  base ++ pad.1

/-- The value of random.uniform(a, b) when random.random() returns x. -/
def uniformVal (a b x : ℚ) : ℚ := a + (b - a) * x

/-- Closed form of a float block: the n float32 serializations of uniform
draws for seed s starting at call index k0. -/
def layerBlock (u : Nat → Nat → UnitRand) (a b : ℚ) (s k0 n : Nat) : List BByte :=
  ((List.range n).map fun j => packF32 (uniformVal a b (u s (k0 + j)).val)).flatten

/-- Closed form of a padding block: n raw bytes of randint draws for seed s
starting at call index k0. -/
def padBlock (r : Nat → Nat → Fin 256) (s k0 n : Nat) : List BByte :=
  (List.range n).map fun j => BByte.raw (r s (k0 + j)).val

/-- The fixed (pseudo-random-independent of the padding) part of the
production container: 20-byte header followed by the two layer blocks. -/
def prodBase (u : Nat → Nat → UnitRand) (auc : ℚ) (input_size model_size : Nat) :
    List BByte :=
  tfliteMagic ++ packU32 1 ++ packU32 model_size ++ packU32 input_size ++ packF32 auc
    ++ layerBlock u (-(1/2)) (1/2) 42 0 1000 ++ layerBlock u (-1) 1 42 1000 5000

/-- The n-byte segment of a byte list starting at offset s. -/
def seg (s n : Nat) (l : List BByte) : List BByte := (l.drop s).take n

/-- Decoding 4 raw bytes as a 32-bit little-endian unsigned integer. -/
def decodeU32 : List BByte → Option Nat
  | [BByte.raw a, BByte.raw b, BByte.raw c, BByte.raw d] =>
      some (a + 256 * b + 65536 * c + 16777216 * d)
  | _ => none

/-- Decoding a 4-byte little-endian binary32 field: the four bytes must be the
four serialization bytes, in order, of one value x; the decoded value is then
rnd x, where rnd is the serializer's rounding map (value to the value of the
binary32 it is stored as). -/
def decodeF32 (rnd : ℚ → ℚ) : List BByte → Option ℚ
  | [BByte.f32 i x, BByte.f32 j y, BByte.f32 k z, BByte.f32 l w] =>
      if i = 0 ∧ j = 1 ∧ k = 2 ∧ l = 3 ∧ x = y ∧ y = z ∧ z = w then some (rnd x)
      else none
  | _ => none

/-- A rational exactly representable as an IEEE-754 binary32 value:
m * 2^e with |m| ≤ 2^24 and e in the binary32 exponent range. -/
def Float32Representable (q : ℚ) : Prop :=
  ∃ m e : ℤ, q = (m : ℚ) * (2 : ℚ) ^ e ∧ m.natAbs ≤ 16777216 ∧ -149 ≤ e ∧ e ≤ 104

/-- A concrete trivial instance of the abstract random.random() draw family,
used to witness theorems: every call returns 0. -/
def u0 : Nat → Nat → UnitRand := fun _ _ => ⟨0, by norm_num⟩

/-- A concrete trivial instance of the abstract randint draw family. -/
def r0 : Nat → Nat → Fin 256 := fun _ _ => 0

/-! ### Structural lemmas about the loops and the container layout -/

theorem floatLoop_eq (u : Nat → Nat → UnitRand) (a b : ℚ) (n : Nat) (σ : RState) :
    floatLoop u a b n σ = (layerBlock u a b σ.sd σ.k n, ⟨σ.sd, σ.k + n⟩) := by
  induction n generalizing σ with
  | zero => simp [floatLoop, layerBlock]
  | succ n ih =>
    simp only [floatLoop, uniformCall, randomCall, ih, layerBlock,
      List.range_succ_eq_map, List.map_cons, List.map_map, List.flatten_cons,
      Prod.mk.injEq]
    refine ⟨?_, ?_⟩
    · have h1 : uniformVal a b (u σ.sd (σ.k + 0)).val = a + (b - a) * (u σ.sd σ.k).val := by
        simp [uniformVal]
      have h2 : ((fun j => packF32 (uniformVal a b (u σ.sd (σ.k + j)).val)) ∘ Nat.succ)
          = fun j => packF32 (uniformVal a b (u σ.sd (σ.k + 1 + j)).val) := by
        funext j
        have hj : σ.k + Nat.succ j = σ.k + 1 + j := by omega
        simp only [Function.comp_apply, hj]
      rw [h1, h2]
    · simp only [RState.mk.injEq, true_and]
      omega

theorem padLoop_eq (r : Nat → Nat → Fin 256) (n : Nat) (σ : RState) :
    padLoop r n σ = (padBlock r σ.sd σ.k n, ⟨σ.sd, σ.k + n⟩) := by
  induction n generalizing σ with
  | zero => simp [padLoop, padBlock]
  | succ n ih =>
    simp only [padLoop, randintCall, ih, padBlock,
      List.range_succ_eq_map, List.map_cons, List.map_map, Prod.mk.injEq]
    refine ⟨?_, ?_⟩
    · have h2 : ((fun j => BByte.raw (r σ.sd (σ.k + j)).val) ∘ Nat.succ)
          = fun j => BByte.raw (r σ.sd (σ.k + 1 + j)).val := by
        funext j
        have hj : σ.k + Nat.succ j = σ.k + 1 + j := by omega
        simp only [Function.comp_apply, hj]
      rw [h2]
      simp
    · simp only [RState.mk.injEq, true_and]
      omega

theorem layerBlock_length (u : Nat → Nat → UnitRand) (a b : ℚ) (s k0 n : Nat) :
    (layerBlock u a b s k0 n).length = 4 * n := by
  simp only [layerBlock, List.length_flatten, List.map_map]
  have : ((List.range n).map (List.length ∘ fun j => packF32 (uniformVal a b (u s (k0 + j)).val)))
      = (List.range n).map fun _ => 4 := by
    congr 1
  rw [this]
  simp [List.map_const', mul_comm]

theorem padBlock_length (r : Nat → Nat → Fin 256) (s k0 n : Nat) :
    (padBlock r s k0 n).length = n := by
  simp [padBlock]

theorem prodBase_length (u : Nat → Nat → UnitRand) (auc : ℚ) (isz d : Nat) :
    (prodBase u auc isz d).length = 24020 := by
  simp [prodBase, layerBlock_length, tfliteMagic, packU32, packF32]

/-- The production container is the fixed 24020-byte part followed by the
padding block, whose randint draws continue at call index 6000. -/
theorem production_build_eq (u : Nat → Nat → UnitRand) (r : Nat → Nat → Fin 256)
    (auc : ℚ) (isz d : Nat) (σ0 : RState) :
    create_production_model_data u r auc isz d σ0 =
      prodBase u auc isz d ++ padBlock r 42 6000 (d - 24020) := by
  simp only [create_production_model_data, seedGen, floatLoop_eq, padLoop_eq, prodBase]
  have hlen : (tfliteMagic ++ packU32 1 ++ packU32 d ++ packU32 isz ++ packF32 auc
      ++ layerBlock u (-(1/2)) (1/2) 42 0 1000 ++ layerBlock u (-1) 1 42 1000 5000).length
      = 24020 := by
    simp [layerBlock_length, tfliteMagic, packU32, packF32]
  simp only [List.append_assoc] at hlen ⊢
  rw [hlen]

theorem production_build_length (u : Nat → Nat → UnitRand) (r : Nat → Nat → Fin 256)
    (auc : ℚ) (isz d : Nat) (σ0 : RState) :
    (create_production_model_data u r auc isz d σ0).length = 24020 + (d - 24020) := by
  rw [production_build_eq]
  simp [prodBase_length, padBlock_length]

theorem seg_of_append (s n : Nat) (pre mid post : List BByte)
    (hs : pre.length = s) (hn : mid.length = n) :
    seg s n (pre ++ (mid ++ post)) = mid := by
  unfold seg
  rw [List.drop_left' hs, List.take_left' hn]

theorem decodeU32_packU32 (n : Nat) (h : n < 4294967296) :
    decodeU32 (packU32 n) = some n := by
  simp only [packU32, decodeU32, Option.some.injEq]
  omega

theorem seg_zero (n : Nat) (mid post : List BByte) (hn : mid.length = n) :
    seg 0 n (mid ++ post) = mid := by
  unfold seg
  rw [List.drop_zero, List.take_left' hn]

theorem seg_shift (pre rest : List BByte) (m s t n : Nat) (h : pre.length = m)
    (ht : t = m + s) : seg t n (pre ++ rest) = seg s n rest := by
  unfold seg
  rw [ht, ← List.drop_drop s m (pre ++ rest), List.drop_left' h]

theorem prod_seg_magic (u : Nat → Nat → UnitRand) (r : Nat → Nat → Fin 256)
    (auc : ℚ) (isz d : Nat) (σ0 : RState) :
    seg 0 4 (create_production_model_data u r auc isz d σ0) = tfliteMagic := by
  rw [production_build_eq]
  simp only [prodBase, List.append_assoc]
  exact seg_zero 4 _ _ rfl

theorem prod_seg_version (u : Nat → Nat → UnitRand) (r : Nat → Nat → Fin 256)
    (auc : ℚ) (isz d : Nat) (σ0 : RState) :
    seg 4 4 (create_production_model_data u r auc isz d σ0) = packU32 1 := by
  rw [production_build_eq]
  simp only [prodBase, List.append_assoc]
  rw [seg_shift tfliteMagic _ 4 0 4 4 rfl (by norm_num)]
  exact seg_zero 4 _ _ rfl

theorem prod_seg_size (u : Nat → Nat → UnitRand) (r : Nat → Nat → Fin 256)
    (auc : ℚ) (isz d : Nat) (σ0 : RState) :
    seg 8 4 (create_production_model_data u r auc isz d σ0) = packU32 d := by
  rw [production_build_eq]
  simp only [prodBase, List.append_assoc]
  rw [seg_shift tfliteMagic _ 4 4 8 4 rfl (by norm_num),
    seg_shift (packU32 1) _ 4 0 4 4 rfl (by norm_num)]
  exact seg_zero 4 _ _ rfl

theorem prod_seg_inputsize (u : Nat → Nat → UnitRand) (r : Nat → Nat → Fin 256)
    (auc : ℚ) (isz d : Nat) (σ0 : RState) :
    seg 12 4 (create_production_model_data u r auc isz d σ0) = packU32 isz := by
  rw [production_build_eq]
  simp only [prodBase, List.append_assoc]
  rw [seg_shift tfliteMagic _ 4 8 12 4 rfl (by norm_num),
    seg_shift (packU32 1) _ 4 4 8 4 rfl (by norm_num),
    seg_shift (packU32 d) _ 4 0 4 4 rfl (by norm_num)]
  exact seg_zero 4 _ _ rfl

theorem prod_seg_auc (u : Nat → Nat → UnitRand) (r : Nat → Nat → Fin 256)
    (auc : ℚ) (isz d : Nat) (σ0 : RState) :
    seg 16 4 (create_production_model_data u r auc isz d σ0) = packF32 auc := by
  rw [production_build_eq]
  simp only [prodBase, List.append_assoc]
  rw [seg_shift tfliteMagic _ 4 12 16 4 rfl (by norm_num),
    seg_shift (packU32 1) _ 4 8 12 4 rfl (by norm_num),
    seg_shift (packU32 d) _ 4 4 8 4 rfl (by norm_num),
    seg_shift (packU32 isz) _ 4 0 4 4 rfl (by norm_num)]
  exact seg_zero 4 _ _ rfl

theorem prod_seg_block1 (u : Nat → Nat → UnitRand) (r : Nat → Nat → Fin 256)
    (auc : ℚ) (isz d : Nat) (σ0 : RState) :
    seg 20 4000 (create_production_model_data u r auc isz d σ0) =
      layerBlock u (-(1/2)) (1/2) 42 0 1000 := by
  rw [production_build_eq]
  simp only [prodBase, List.append_assoc]
  rw [seg_shift tfliteMagic _ 4 16 20 4000 rfl (by norm_num),
    seg_shift (packU32 1) _ 4 12 16 4000 rfl (by norm_num),
    seg_shift (packU32 d) _ 4 8 12 4000 rfl (by norm_num),
    seg_shift (packU32 isz) _ 4 4 8 4000 rfl (by norm_num),
    seg_shift (packF32 auc) _ 4 0 4 4000 rfl (by norm_num)]
  exact seg_zero 4000 _ _ (by rw [layerBlock_length])

theorem prod_seg_block2 (u : Nat → Nat → UnitRand) (r : Nat → Nat → Fin 256)
    (auc : ℚ) (isz d : Nat) (σ0 : RState) :
    seg 4020 20000 (create_production_model_data u r auc isz d σ0) =
      layerBlock u (-1) 1 42 1000 5000 := by
  rw [production_build_eq]
  simp only [prodBase, List.append_assoc]
  rw [seg_shift tfliteMagic _ 4 4016 4020 20000 rfl (by norm_num),
    seg_shift (packU32 1) _ 4 4012 4016 20000 rfl (by norm_num),
    seg_shift (packU32 d) _ 4 4008 4012 20000 rfl (by norm_num),
    seg_shift (packU32 isz) _ 4 4004 4008 20000 rfl (by norm_num),
    seg_shift (packF32 auc) _ 4 4000 4004 20000 rfl (by norm_num),
    seg_shift (layerBlock u (-(1/2)) (1/2) 42 0 1000) _ 4000 0 4000 20000
      (by rw [layerBlock_length]) (by norm_num)]
  exact seg_zero 20000 _ _ (by rw [layerBlock_length])

theorem prod_drop_pad (u : Nat → Nat → UnitRand) (r : Nat → Nat → Fin 256)
    (auc : ℚ) (isz d : Nat) (σ0 : RState) :
    (create_production_model_data u r auc isz d σ0).drop 24020 =
      padBlock r 42 6000 (d - 24020) := by
  rw [production_build_eq, List.drop_left' (prodBase_length u auc isz d)]

/-- The fixed part of the simple container: 12-byte header and the single
layer block. -/
def simpleBase (u : Nat → Nat → UnitRand) : List BByte :=
  tfliteMagic ++ packU32 1 ++ packU32 100000 ++ layerBlock u (-1) 1 42 0 1000

theorem simpleBase_length (u : Nat → Nat → UnitRand) :
    (simpleBase u).length = 4012 := by
  simp [simpleBase, layerBlock_length, tfliteMagic, packU32]

/-- The simple container is the fixed 4012-byte part followed by 95988 padding
bytes whose randint draws continue at call index 1000. -/
theorem simple_build_eq (u : Nat → Nat → UnitRand) (r : Nat → Nat → Fin 256)
    (σ0 : RState) :
    create_simple_tflite_model u r σ0 = simpleBase u ++ padBlock r 42 1000 95988 := by
  simp only [create_simple_tflite_model, seedGen, floatLoop_eq, padLoop_eq, simpleBase]
  have hlen : (tfliteMagic ++ packU32 1 ++ packU32 100000
      ++ layerBlock u (-1) 1 42 0 1000).length = 4012 := by
    simp [layerBlock_length, tfliteMagic, packU32]
  simp only [List.append_assoc] at hlen ⊢
  rw [hlen]

/-! ### Claims -/

/-- Claim C1: for every fixed pair of resolved metadata (auc, input_size) and
declared size, two independent invocations of the container build produce
byte-for-byte identical output sequences.  Invocations differ only in the
pseudo-random generator state they start from (σ1, σ2); the build seeds the
generator with the fixed constant 42 exactly once, so that state is discarded
and the draws are consumed in one fixed sequential order. -/
theorem claim_C1_build_deterministic (u : Nat → Nat → UnitRand) (r : Nat → Nat → Fin 256)
    (auc : ℚ) (isz d : Nat) (σ1 σ2 : RState) :
    create_production_model_data u r auc isz d σ1 =
      create_production_model_data u r auc isz d σ2 := rfl

/-- Claim C2: the built byte sequence has length exactly declared_size when
declared_size ≥ 24020; when declared_size < 24020 the output length is exactly
24020 (20-byte header plus 1000 + 5000 float32 values), the padding is empty,
and no already-written bytes are removed (the output is exactly the fixed
header-and-blocks part prodBase). -/
theorem claim_C2_output_length (u : Nat → Nat → UnitRand) (r : Nat → Nat → Fin 256)
    (auc : ℚ) (isz d : Nat) (σ0 : RState) :
    (24020 ≤ d → (create_production_model_data u r auc isz d σ0).length = d)
    ∧ (d < 24020 →
        (create_production_model_data u r auc isz d σ0).length = 24020
        ∧ create_production_model_data u r auc isz d σ0 = prodBase u auc isz d) := by
  refine ⟨fun h => ?_, fun h => ⟨?_, ?_⟩⟩
  · rw [production_build_length]
    omega
  · rw [production_build_length]
    omega
  · rw [production_build_eq]
    have hz : d - 24020 = 0 := by omega
    rw [hz]
    simp [padBlock]

/-- Witness for claim C2 at declared sizes 25000000 and 100. -/
theorem claim_C2_output_length_witness :
    ((create_production_model_data u0 r0 0 18 25000000 ⟨0, 0⟩).length = 25000000)
    ∧ ((create_production_model_data u0 r0 0 18 100 ⟨0, 0⟩).length = 24020
        ∧ create_production_model_data u0 r0 0 18 100 ⟨0, 0⟩ = prodBase u0 0 18 100) :=
  ⟨(claim_C2_output_length u0 r0 0 18 25000000 ⟨0, 0⟩).1 (by norm_num),
   (claim_C2_output_length u0 r0 0 18 100 ⟨0, 0⟩).2 (by norm_num)⟩

/-- Claim C3: the first 20 bytes of the built container are, in order: the
4-byte magic tag; the version 1 as a 32-bit little-endian unsigned integer;
declared_size as a 32-bit little-endian unsigned integer; metadata.input_size
as a 32-bit little-endian unsigned integer; and metadata.auc serialized as a
4-byte little-endian IEEE-754 float. -/
theorem claim_C3_header_layout (u : Nat → Nat → UnitRand) (r : Nat → Nat → Fin 256)
    (auc : ℚ) (isz d : Nat) (σ0 : RState)
    (hd : d < 4294967296) (hi : isz < 4294967296) :
    seg 0 4 (create_production_model_data u r auc isz d σ0) = tfliteMagic
    ∧ seg 4 4 (create_production_model_data u r auc isz d σ0) = packU32 1
    ∧ decodeU32 (seg 4 4 (create_production_model_data u r auc isz d σ0)) = some 1
    ∧ seg 8 4 (create_production_model_data u r auc isz d σ0) = packU32 d
    ∧ decodeU32 (seg 8 4 (create_production_model_data u r auc isz d σ0)) = some d
    ∧ seg 12 4 (create_production_model_data u r auc isz d σ0) = packU32 isz
    ∧ decodeU32 (seg 12 4 (create_production_model_data u r auc isz d σ0)) = some isz
    ∧ seg 16 4 (create_production_model_data u r auc isz d σ0) = packF32 auc := by
  refine ⟨prod_seg_magic u r auc isz d σ0, prod_seg_version u r auc isz d σ0, ?_,
    prod_seg_size u r auc isz d σ0, ?_, prod_seg_inputsize u r auc isz d σ0, ?_,
    prod_seg_auc u r auc isz d σ0⟩
  · rw [prod_seg_version, decodeU32_packU32 1 (by norm_num)]
  · rw [prod_seg_size, decodeU32_packU32 d hd]
  · rw [prod_seg_inputsize, decodeU32_packU32 isz hi]

/-- Witness for claim C3 at auc 0, input_size 18, declared_size 25000000. -/
theorem claim_C3_header_layout_witness :
    seg 0 4 (create_production_model_data u0 r0 0 18 25000000 ⟨0, 0⟩) = tfliteMagic
    ∧ seg 4 4 (create_production_model_data u0 r0 0 18 25000000 ⟨0, 0⟩) = packU32 1
    ∧ decodeU32 (seg 4 4 (create_production_model_data u0 r0 0 18 25000000 ⟨0, 0⟩)) = some 1
    ∧ seg 8 4 (create_production_model_data u0 r0 0 18 25000000 ⟨0, 0⟩) = packU32 25000000
    ∧ decodeU32 (seg 8 4 (create_production_model_data u0 r0 0 18 25000000 ⟨0, 0⟩))
        = some 25000000
    ∧ seg 12 4 (create_production_model_data u0 r0 0 18 25000000 ⟨0, 0⟩) = packU32 18
    ∧ decodeU32 (seg 12 4 (create_production_model_data u0 r0 0 18 25000000 ⟨0, 0⟩)) = some 18
    ∧ seg 16 4 (create_production_model_data u0 r0 0 18 25000000 ⟨0, 0⟩) = packF32 0 :=
  claim_C3_header_layout u0 r0 0 18 25000000 ⟨0, 0⟩ (by norm_num) (by norm_num)

/-- Claim C4: bytes [20:4020] of the container are the 1000 consecutive
little-endian float32 serializations of the uniform draws over [-0.5, 0.5]
(stream indices 0 to 999 of the generator seeded with 42), each value lying in
[-0.5, 0.5]; bytes [4020:24020] are the 5000 consecutive float32
serializations of the uniform draws over [-1, 1] at stream indices 1000 to
5999 — the same seed-42 stream continued without reseeding — each value lying
in [-1, 1]. -/
theorem claim_C4_layer_blocks (u : Nat → Nat → UnitRand) (r : Nat → Nat → Fin 256)
    (auc : ℚ) (isz d : Nat) (σ0 : RState) :
    seg 20 4000 (create_production_model_data u r auc isz d σ0)
        = layerBlock u (-(1/2)) (1/2) 42 0 1000
    ∧ (∀ j : Nat, -(1/2 : ℚ) ≤ uniformVal (-(1/2)) (1/2) (u 42 j).val
        ∧ uniformVal (-(1/2)) (1/2) (u 42 j).val ≤ 1/2)
    ∧ seg 4020 20000 (create_production_model_data u r auc isz d σ0)
        = layerBlock u (-1) 1 42 1000 5000
    ∧ (∀ j : Nat, -(1 : ℚ) ≤ uniformVal (-1) 1 (u 42 (1000 + j)).val
        ∧ uniformVal (-1) 1 (u 42 (1000 + j)).val ≤ 1) := by
  refine ⟨prod_seg_block1 u r auc isz d σ0, fun j => ?_,
    prod_seg_block2 u r auc isz d σ0, fun j => ?_⟩
  · obtain ⟨h0, h1⟩ := (u 42 j).2
    unfold uniformVal
    constructor <;> nlinarith
  · obtain ⟨h0, h1⟩ := (u 42 (1000 + j)).2
    unfold uniformVal
    constructor <;> nlinarith

/-- Claim C5: on every failure of metadata resolution — the whole try-block
raising (src = none), or the scaler-stats object lacking the mean key — the
resolver returns the fixed default metadata (model_type PAT-Conv-L,
auc 0.5929, parameter_count 1984289, input_size 18); resolution is total (no
exception escapes) and the subsequent build still succeeds with those
defaults, producing the full 25000000-byte container. -/
theorem claim_C5_fallback_defaults (u : Nat → Nat → UnitRand) (r : Nat → Nat → Fin 256)
    (σ0 : RState) (md : RawMetadata) (ss : List (String × List ℚ))
    (hss : ss.lookup "mean" = none) :
    resolveMetadata none = defaultMeta
    ∧ resolveMetadata (some (md, ss)) = defaultMeta
    ∧ defaultMeta.model_type = "PAT-Conv-L"
    ∧ defaultMeta.auc = 5929 / 10000
    ∧ defaultMeta.parameters = 1984289
    ∧ defaultMeta.input_size = 18
    ∧ (create_production_tflite_model u r none σ0).2 = defaultMeta
    ∧ (create_production_tflite_model u r none σ0).1.length = 25000000 := by
  refine ⟨rfl, ?_, rfl, rfl, rfl, rfl, rfl, ?_⟩
  · simp [resolveMetadata, hss]
  · show (create_production_model_data u r defaultMeta.auc defaultMeta.input_size
      25000000 σ0).length = 25000000
    rw [production_build_length]

/-- Witness for claim C5 with an empty scaler-stats object (no mean key). -/
theorem claim_C5_fallback_defaults_witness :
    resolveMetadata none = defaultMeta
    ∧ resolveMetadata (some (⟨"PAT-Conv-L", 5929 / 10000, 1984289, "2025-07-20"⟩, []))
        = defaultMeta
    ∧ defaultMeta.model_type = "PAT-Conv-L"
    ∧ defaultMeta.auc = 5929 / 10000
    ∧ defaultMeta.parameters = 1984289
    ∧ defaultMeta.input_size = 18
    ∧ (create_production_tflite_model u0 r0 none ⟨0, 0⟩).2 = defaultMeta
    ∧ (create_production_tflite_model u0 r0 none ⟨0, 0⟩).1.length = 25000000 :=
  claim_C5_fallback_defaults u0 r0 ⟨0, 0⟩ ⟨"PAT-Conv-L", 5929 / 10000, 1984289, "2025-07-20"⟩
    [] rfl

/-- A metadata record used for the claim C6 instances. -/
def mdC6 : RawMetadata :=
  { model_type := "PAT-Conv-L", auc := 5929 / 10000, parameters := 1984289,
    date_trained := "2025-07-20" }

/-- A scaler-stats object with two keys whose mean entry has three elements. -/
def ssC6 : List (String × List ℚ) := [("mean", [0, 0, 0]), ("std", [0, 0])]

/-- Claim C6 counterexample: the claim says the resolved input_size equals the
number of keys of the scaler-statistics record; on a successfully read record
with two keys (mean and std) whose mean entry is a three-element list, the
code resolves input_size to len(scaler_stats['mean']) = 3, not to the key
count 2. -/
theorem claim_C6_counterexample :
    (resolveMetadata (some (mdC6, ssC6))).input_size = 3
    ∧ ssC6.length = 2
    ∧ (resolveMetadata (some (mdC6, ssC6))).input_size ≠ ssC6.length := by
  refine ⟨?_, rfl, ?_⟩ <;> decide

/-- Claim C6 (amended): for every successfully read scaler-statistics record
whose mean entry is present, the resolved input_size equals the length of the
value stored under the mean key (not the number of keys of the record). -/
theorem claim_C6_inputsize_amended (md : RawMetadata) (ss : List (String × List ℚ))
    (l : List ℚ) (h : ss.lookup "mean" = some l) :
    (resolveMetadata (some (md, ss))).input_size = l.length := by
  simp [resolveMetadata, h]

/-- Witness for the amended claim C6 at the concrete record ssC6. -/
theorem claim_C6_inputsize_amended_witness :
    (resolveMetadata (some (mdC6, ssC6))).input_size = ([0, 0, 0] : List ℚ).length :=
  claim_C6_inputsize_amended mdC6 ssC6 [0, 0, 0] (by decide)

/-- Claim C7: for declared_size 100000 with the default metadata (auc 0.5929,
input_size 18), the container has total length exactly 100000, its first
4 bytes are the magic tag, bytes [8:12] decode little-endian to 100000, and
bytes [12:16] decode little-endian to 18. -/
theorem claim_C7_scenario_100000 (u : Nat → Nat → UnitRand) (r : Nat → Nat → Fin 256)
    (σ0 : RState) :
    (create_production_model_data u r defaultMeta.auc defaultMeta.input_size
        100000 σ0).length = 100000
    ∧ seg 0 4 (create_production_model_data u r defaultMeta.auc defaultMeta.input_size
        100000 σ0) = tfliteMagic
    ∧ decodeU32 (seg 8 4 (create_production_model_data u r defaultMeta.auc
        defaultMeta.input_size 100000 σ0)) = some 100000
    ∧ decodeU32 (seg 12 4 (create_production_model_data u r defaultMeta.auc
        defaultMeta.input_size 100000 σ0)) = some 18 := by
  refine ⟨?_, prod_seg_magic u r defaultMeta.auc defaultMeta.input_size 100000 σ0, ?_, ?_⟩
  · rw [production_build_length]
  · rw [prod_seg_size, decodeU32_packU32 100000 (by norm_num)]
  · show decodeU32 (seg 12 4 (create_production_model_data u r defaultMeta.auc
      18 100000 σ0)) = some 18
    rw [prod_seg_inputsize, decodeU32_packU32 18 (by norm_num)]

/-- Claim C8: for every metadata whose auc value is exactly representable as a
32-bit IEEE-754 float, decoding bytes [16:20] of the container as a
little-endian float32 yields metadata.auc exactly: the serializer stores the
binary32 rounding rnd auc of the value, and every exactly representable value
is a fixed point of the rounding map. -/
theorem claim_C8_auc_roundtrip (u : Nat → Nat → UnitRand) (r : Nat → Nat → Fin 256)
    (auc : ℚ) (isz d : Nat) (σ0 : RState) (rnd : ℚ → ℚ)
    (hrnd : ∀ q, Float32Representable q → rnd q = q)
    (hauc : Float32Representable auc) :
    decodeF32 rnd (seg 16 4 (create_production_model_data u r auc isz d σ0)) = some auc := by
  rw [prod_seg_auc]
  simp [decodeF32, packF32, hrnd auc hauc]

/-- Witness for claim C8 at auc = 1/2 (exactly representable: 1 * 2 ^ (-1))
and the identity rounding map, which fixes every representable value. -/
theorem claim_C8_auc_roundtrip_witness :
    decodeF32 id (seg 16 4 (create_production_model_data u0 r0 (1/2) 18 25000000 ⟨0, 0⟩))
      = some (1/2) :=
  claim_C8_auc_roundtrip u0 r0 (1/2) 18 25000000 ⟨0, 0⟩ id (fun _ _ => rfl)
    ⟨1, -1, by norm_num, by norm_num, by norm_num, by norm_num⟩

/-- Claim C9: the simple builder always returns exactly 100000 bytes, whose
header is only 12 bytes — magic tag, version 1 little-endian, size 100000
little-endian, with no input_size and no auc field; bytes from offset 12 are
the 1000 little-endian float32 serializations of uniform draws over [-1, 1]
(stream indices 0 to 999 after seeding with 42), each value in [-1, 1],
followed from offset 4012 by the 95988 pseudo-random padding bytes in
[0, 255] up to the 100000-byte total. -/
theorem claim_C9_simple_builder (u : Nat → Nat → UnitRand) (r : Nat → Nat → Fin 256)
    (σ0 : RState) :
    (create_simple_tflite_model u r σ0).length = 100000
    ∧ seg 0 4 (create_simple_tflite_model u r σ0) = tfliteMagic
    ∧ seg 4 4 (create_simple_tflite_model u r σ0) = packU32 1
    ∧ decodeU32 (seg 4 4 (create_simple_tflite_model u r σ0)) = some 1
    ∧ seg 8 4 (create_simple_tflite_model u r σ0) = packU32 100000
    ∧ decodeU32 (seg 8 4 (create_simple_tflite_model u r σ0)) = some 100000
    ∧ seg 12 4000 (create_simple_tflite_model u r σ0) = layerBlock u (-1) 1 42 0 1000
    ∧ (∀ j : Nat, -(1 : ℚ) ≤ uniformVal (-1) 1 (u 42 j).val
        ∧ uniformVal (-1) 1 (u 42 j).val ≤ 1)
    ∧ (create_simple_tflite_model u r σ0).drop 4012 = padBlock r 42 1000 95988
    ∧ (∀ s k : Nat, (r s k).val ≤ 255) := by
  have hmagic : seg 0 4 (create_simple_tflite_model u r σ0) = tfliteMagic := by
    rw [simple_build_eq]
    simp only [simpleBase, List.append_assoc]
    exact seg_zero 4 _ _ rfl
  have hver : seg 4 4 (create_simple_tflite_model u r σ0) = packU32 1 := by
    rw [simple_build_eq]
    simp only [simpleBase, List.append_assoc]
    rw [seg_shift tfliteMagic _ 4 0 4 4 rfl (by norm_num)]
    exact seg_zero 4 _ _ rfl
  have hsize : seg 8 4 (create_simple_tflite_model u r σ0) = packU32 100000 := by
    rw [simple_build_eq]
    simp only [simpleBase, List.append_assoc]
    rw [seg_shift tfliteMagic _ 4 4 8 4 rfl (by norm_num),
      seg_shift (packU32 1) _ 4 0 4 4 rfl (by norm_num)]
    exact seg_zero 4 _ _ rfl
  refine ⟨?_, hmagic, hver, ?_, hsize, ?_, ?_, fun j => ?_, ?_, fun s k => ?_⟩
  · rw [simple_build_eq]
    simp [simpleBase_length, padBlock_length]
  · rw [hver, decodeU32_packU32 1 (by norm_num)]
  · rw [hsize, decodeU32_packU32 100000 (by norm_num)]
  · rw [simple_build_eq]
    simp only [simpleBase, List.append_assoc]
    rw [seg_shift tfliteMagic _ 4 8 12 4000 rfl (by norm_num),
      seg_shift (packU32 1) _ 4 4 8 4000 rfl (by norm_num),
      seg_shift (packU32 100000) _ 4 0 4 4000 rfl (by norm_num)]
    exact seg_zero 4000 _ _ (by rw [layerBlock_length])
  · obtain ⟨h0, h1⟩ := (u 42 j).2
    unfold uniformVal
    constructor <;> nlinarith
  · rw [simple_build_eq, List.drop_left' (simpleBase_length u)]
  · have := (r s k).isLt
    omega

/-- Claim C10: the byte sequence returned by the production builder depends
only on the resolved auc and input_size (and the fixed declared size
25000000): two resolved metadata records that agree on auc and input_size but
may differ in model_type, parameters, or date_trained produce identical byte
sequences. -/
theorem claim_C10_only_auc_inputsize (u : Nat → Nat → UnitRand) (r : Nat → Nat → Fin 256)
    (σ0 : RState) (m1 m2 : ResolvedMeta)
    (hauc : m1.auc = m2.auc) (hisz : m1.input_size = m2.input_size) :
    create_production_model_data u r m1.auc m1.input_size 25000000 σ0 =
      create_production_model_data u r m2.auc m2.input_size 25000000 σ0 := by
  rw [hauc, hisz]

/-- A resolved metadata record for the claim C10 witness. -/
def m1C10 : ResolvedMeta :=
  { model_type := "PAT-Conv-L", auc := 5929 / 10000, parameters := 1984289,
    date_trained := some "2025-07-20", input_size := 18 }

/-- A record agreeing with m1C10 on auc and input_size only. -/
def m2C10 : ResolvedMeta :=
  { model_type := "other", auc := 5929 / 10000, parameters := 7,
    date_trained := none, input_size := 18 }

/-- Witness for claim C10: the two records differ in model_type, parameters
and date_trained yet yield the same bytes. -/
theorem claim_C10_only_auc_inputsize_witness :
    create_production_model_data u0 r0 m1C10.auc m1C10.input_size 25000000 ⟨0, 0⟩ =
      create_production_model_data u0 r0 m2C10.auc m2C10.input_size 25000000 ⟨0, 0⟩ :=
  claim_C10_only_auc_inputsize u0 r0 ⟨0, 0⟩ m1C10 m2C10 rfl rfl
